import Mathlib

/-!
Verification of the auto-healer orchestration core against its design notes.

The Python sources are shallowly embedded as Lean definitions:
* metric values (Python floats holding aggregated statistics) are modelled as
  rationals `ℚ`, Python ints as `ℤ`;
* the BigQuery call inside `detect_anomaly`, the Gemini call inside
  `predict_risk`, and the gcloud-backed MCP tools invoked by the root agent are
  external collaborators; each embedding takes the collaborator's outcome as an
  explicit argument (a `QueryOutcome`, an `Except`-valued response, or a `World`
  record of tool results);
* Python functions that can raise to their caller are embedded as
  `Except`-valued functions; functions that handle every exception internally
  are embedded as total functions;
* the human-readable violation strings built with float formatting are
  abstracted to tagged values carrying the observed value and the threshold;
  all other strings are reproduced.
-/

/-! ## Detection (mcp_tools.py `detect_anomaly`, mcp_server.py `detect_anomaly`) -/

/-- One aggregated row returned by the BigQuery window query.  The AVG/MAX
columns are nullable (`row.x or 0` in the source), hence `Option ℚ`. -/
structure MetricsRow where
  avg_latency_ms : Option ℚ
  max_latency_ms : Option ℚ
  avg_kafka_lag : Option ℚ
  max_kafka_lag : Option ℚ
  avg_error_rate : Option ℚ
  sample_count : ℤ
deriving DecidableEq

/-- The `metrics` dictionary built from the first row
(`float(row.x or 0)`, `int(row.sample_count)`). -/
structure Metrics where
  avg_latency_ms : ℚ
  max_latency_ms : ℚ
  avg_kafka_lag : ℚ
  max_kafka_lag : ℚ
  avg_error_rate : ℚ
  sample_count : ℤ
deriving DecidableEq

def extractMetrics (row : MetricsRow) : Metrics :=
  ⟨row.avg_latency_ms.getD 0, row.max_latency_ms.getD 0, row.avg_kafka_lag.getD 0,
   row.max_kafka_lag.getD 0, row.avg_error_rate.getD 0, row.sample_count⟩

/-- A threshold violation.  The source appends a formatted description string
per fired rule; here each description is abstracted to a tag carrying the
observed value and the threshold it was compared against. -/
inductive Violation where
  | latency (observed threshold : ℚ)
  | kafkaLag (observed : ℚ) (threshold : ℤ)
  | errorRate (observed : ℚ)
deriving DecidableEq

/-- The `"error"` field of a failed detection
(`"NO_DATA"`, `"TABLE_NOT_FOUND"`, `"PERMISSION_DENIED"`, or
`str(type(e).__name__)` for any other exception). -/
inductive ErrorKind where
  | NO_DATA
  | TABLE_NOT_FOUND
  | PERMISSION_DENIED
  | unclassified (typeName : String)
deriving DecidableEq

/-- The dictionary returned by `detect_anomaly`. -/
structure DetectionResult where
  anomaly_detected : Bool
  service : String
  metrics : Option Metrics
  violations : List Violation
  recommendation : String
  error : Option ErrorKind
deriving DecidableEq

/-- Outcome of the BigQuery query, the only fallible step inside the
`try` block of `detect_anomaly`: the aggregated rows on success, or one of the
exception classes caught by the source (`gcp_exceptions.NotFound`,
`gcp_exceptions.Forbidden`, any other `Exception` carrying its type name and
message). -/
inductive QueryOutcome where
  | ok (rows : List MetricsRow)
  | tableNotFound (msg : String)
  | forbidden (msg : String)
  | failure (typeName msg : String)
deriving DecidableEq

/-- The rows the query produced; an aborted query produced none. -/
def rowsFound : QueryOutcome → List MetricsRow
  | .ok rows => rows
  | _ => []

/-- The three threshold rules of `detect_anomaly`, evaluated in source order
(latency, then kafka lag, then error rate).  The source grows `violations`
imperatively, appending one entry per fired rule; the accumulation is rendered
as an ordered concatenation.  The error-rate bound `0.05` is the literal from
the source. -/
def computeViolations (metrics : Metrics) (latency_threshold_ms : ℚ)
    (kafka_lag_threshold : ℤ) : List Violation :=
  (if metrics.avg_latency_ms > latency_threshold_ms then
    [Violation.latency metrics.avg_latency_ms latency_threshold_ms] else []) ++
  (if metrics.avg_kafka_lag > (kafka_lag_threshold : ℚ) then
    [Violation.kafkaLag metrics.avg_kafka_lag kafka_lag_threshold] else []) ++
  (if metrics.avg_error_rate > 0.05 then
    [Violation.errorRate metrics.avg_error_rate] else [])

/-- The `anomaly_detected` flag: set when any of the three rules fires. -/
def anomalyFlag (metrics : Metrics) (latency_threshold_ms : ℚ)
    (kafka_lag_threshold : ℤ) : Bool :=
  decide (metrics.avg_latency_ms > latency_threshold_ms) ||
  decide (metrics.avg_kafka_lag > (kafka_lag_threshold : ℚ)) ||
  decide (metrics.avg_error_rate > 0.05)

/-- The `"No metrics found ..."` result of the empty-result branch. -/
def noDataResult (service_name : String) (time_window_minutes : ℤ) : DetectionResult :=
  ⟨false, service_name, none, [],
   "No metrics found for " ++ service_name ++ " in last " ++
     toString time_window_minutes ++
     " minutes. Verify service is running and exporting metrics.",
   some ErrorKind.NO_DATA⟩

/-- The rows-found branch shared verbatim by both sources: extract the metrics
from the first row, evaluate the three rules, and phrase the recommendation on
the OR of the rules (with the violation count embedded in the critical text). -/
def detectFromRow (service_name : String) (latency_threshold_ms : ℚ)
    (kafka_lag_threshold : ℤ) (row : MetricsRow) : DetectionResult :=
  let metrics := extractMetrics row
  let violations := computeViolations metrics latency_threshold_ms kafka_lag_threshold
  let anomaly_detected := anomalyFlag metrics latency_threshold_ms kafka_lag_threshold
  let recommendation :=
    if anomaly_detected then
      "CRITICAL: " ++ service_name ++ " requires immediate attention. " ++
        "Recommend scaling replicas and investigating root cause. Violations: " ++
        toString violations.length
    else
      service_name ++ " operating within normal parameters."
  ⟨anomaly_detected, service_name, some metrics, violations, recommendation, none⟩

/-- `detect_anomaly` from mcp_tools.py: every exception class has a handler
returning a well-formed result, so the embedding is a total function.  (The
table name interpolated into the TABLE_NOT_FOUND recommendation is
configuration, abstracted to fixed text.) -/
def detect_anomaly (service_name : String) (time_window_minutes : ℤ)
    (latency_threshold_ms : ℚ) (kafka_lag_threshold : ℤ)
    (outcome : QueryOutcome) : DetectionResult :=
  match outcome with
  | .ok [] => noDataResult service_name time_window_minutes
  | .ok (row :: _) =>
      detectFromRow service_name latency_threshold_ms kafka_lag_threshold row
  | .tableNotFound _ =>
      ⟨false, service_name, none, [],
       "BigQuery table not found. Run setup script to create schema.",
       some ErrorKind.TABLE_NOT_FOUND⟩
  | .forbidden msg =>
      ⟨false, service_name, none, [],
       "Permission denied: Ensure service account has BigQuery Data Viewer role. Error: " ++ msg,
       some ErrorKind.PERMISSION_DENIED⟩
  | .failure typeName msg =>
      ⟨false, service_name, none, [],
       "Error querying metrics: " ++ msg,
       some (ErrorKind.unclassified typeName)⟩

/-- `detect_anomaly` from mcp_server.py: the NO_DATA and rows-found branches
match mcp_tools.py, but its only handler re-raises every exception as
`HTTPException(status_code=500, detail=str(e))`, embedded as `Except.error`
carrying the detail string. -/
def detect_anomaly_server (service_name : String) (time_window_minutes : ℤ)
    (latency_threshold_ms : ℚ) (kafka_lag_threshold : ℤ)
    (outcome : QueryOutcome) : Except String DetectionResult :=
  match outcome with
  | .ok [] => .ok (noDataResult service_name time_window_minutes)
  | .ok (row :: _) =>
      .ok (detectFromRow service_name latency_threshold_ms kafka_lag_threshold row)
  | .tableNotFound msg => .error msg
  | .forbidden msg => .error msg
  | .failure _ msg => .error msg

/-! ## Prediction (mcp_server.py `predict_risk`, mcp_tools.py `predict_risk`) -/

/-- The opening and closing brace characters, used by the truncation check and
the object-isolation slice of the server's `predict_risk`. -/
def lbrace : Char := '\x7b'

def rbrace : Char := '\x7d'

/-- Python `str.strip()`: drop whitespace from both ends. -/
def pyStrip (s : String) : String :=
  String.mk
    (((s.toList.dropWhile Char.isWhitespace).reverse.dropWhile
        Char.isWhitespace).reverse)

/-- `s.count(c)` for a single character. -/
def countChar (s : String) (c : Char) : Nat :=
  (s.toList.filter (fun x => x = c)).length

/-- The JSON object the prompt instructs Gemini to return.  `json.loads` of a
well-shaped response yields these five fields; the source trusts them as
given. -/
structure Prediction where
  risk_score : ℤ
  root_cause : String
  recommended_action : String
  confidence : String
  reasoning : String
deriving DecidableEq

/-- The metrics dictionary handed to `predict_risk`; the source reads the two
fields below with `.get(key, 0)`, so each is optional. -/
structure PredictMetrics where
  avg_latency_ms : Option ℚ
  avg_error_rate : Option ℚ
deriving DecidableEq

/-- The dictionary returned by `predict_risk` (either variant).  The spread
`**prediction` of a successful parse is captured by the five prediction
fields; `message` only appears in the mcp_tools JSON-parse-failure branch, and
the wall-clock `timestamp` is left out of the model. -/
structure RiskAssessment where
  success : Bool
  service : String
  risk_score : ℤ
  root_cause : Option String
  recommended_action : String
  confidence : String
  reasoning : Option String
  error : Option String
  message : Option String
deriving DecidableEq

/-- The `{"success": True, ..., **prediction}` result. -/
def predictionSuccess (service_name : String) (p : Prediction) : RiskAssessment :=
  ⟨true, service_name, p.risk_score, some p.root_cause, p.recommended_action,
   p.confidence, some p.reasoning, none, none⟩

/-- The server's single `except Exception` result:
`{success: False, error, risk_score: 0, recommended_action: "monitor",
confidence: "low"}`. -/
def predictionFailure (service_name msg : String) : RiskAssessment :=
  ⟨false, service_name, 0, none, "monitor", "low", none, some msg, none⟩

/-- Python `str.split("```")` membership test plus the loop of the server's
markdown cleanup: walk the fence-separated parts in order and take the first
stripped part that, after dropping a leading `json` tag, is non-empty and
starts with an object or array opener; keep the original text when no part
qualifies. -/
def pickFencePart : List String → Option String
  | [] => none
  | part :: rest =>
      let part := pyStrip part
      let part := if part.startsWith "json" then pyStrip (part.drop 4) else part
      if part ≠ "" ∧ (part.startsWith "\x7b" ∨ part.startsWith "[") then some part
      else pickFencePart rest

/-- The `if "```" in response_text` block of the server's cleanup. -/
def applyFenceCleanup (response_text : String) : String :=
  let parts := response_text.splitOn "```"
  if parts.length > 1 then
    match pickFencePart parts with
    | some part => part
    | none => response_text
  else response_text

/-- Python `str.find` for one character: index of first occurrence, `-1` when
absent. -/
def pyFind (s : String) (c : Char) : ℤ :=
  match s.toList.findIdx? (fun x => x = c) with
  | some i => (i : ℤ)
  | none => -1

/-- Python `str.rfind` for one character: index of last occurrence, `-1` when
absent. -/
def pyRfind (s : String) (c : Char) : ℤ :=
  match s.toList.reverse.findIdx? (fun x => x = c) with
  | some i => ((s.toList.length - 1 - i : ℕ) : ℤ)
  | none => -1

/-- The object-isolation slice of the server's cleanup:
`start = find("{")`, `end = rfind("}") + 1`, and when
`start != -1 and end > start` keep `response_text[start:end]`. -/
def sliceBraces (response_text : String) : String :=
  let cs := response_text.toList
  let start := pyFind response_text lbrace
  let stop := pyRfind response_text rbrace + 1
  if start ≠ -1 ∧ stop > start then
    String.mk ((cs.drop start.toNat).take (stop - start).toNat)
  else response_text

/-- Markdown-fence stripping followed by object isolation, as run by the
server on a brace-balanced response before `json.loads`. -/
def cleanupResponse (response_text : String) : String :=
  sliceBraces (applyFenceCleanup response_text)

/-- `predict_risk` from mcp_server.py.  `gemini` is the outcome of the Gemini
call (`.error` = the call raised), `parseJson` is the `json.loads` oracle
(`.error` = it raised).  Everything sits in one `try` whose handler returns
`predictionFailure`, so the embedding is total. -/
def predict_risk_server (service_name : String) (metrics : PredictMetrics)
    (gemini : Except String String)
    (parseJson : String → Except String Prediction) : RiskAssessment :=
  match gemini with
  | .error e => predictionFailure service_name e
  | .ok raw =>
      let response_text := pyStrip raw
      if countChar response_text lbrace ≠ countChar response_text rbrace then
        let avg_latency := metrics.avg_latency_ms.getD 0
        let error_rate := metrics.avg_error_rate.getD 0
        let prediction : Prediction :=
          if avg_latency > 1500 ∨ error_rate > 0.05 then
            ⟨85, "High latency and error rate indicate resource constraints",
             "scale_up", "high", "Metrics exceed thresholds, scaling recommended"⟩
          else
            ⟨50, "Minor performance degradation detected",
             "monitor", "medium", "Metrics slightly elevated, continue monitoring"⟩
        predictionSuccess service_name prediction
      else
        match parseJson (cleanupResponse response_text) with
        | .ok p => predictionSuccess service_name p
        | .error e => predictionFailure service_name e

/-- The markdown cleanup of mcp_tools.py: when the response opens with a
fence, take `split("```")[1]`, drop a leading `json` tag, and strip. -/
def cleanupResponseTools (response_text : String) : String :=
  if response_text.startsWith "```" then
    let inner :=
      match response_text.splitOn "```" with
      | _ :: x :: _ => x
      | _ => ""
    let inner := if inner.startsWith "json" then inner.drop 4 else inner
    pyStrip inner
  else response_text

/-- `predict_risk` from mcp_tools.py.  A `json.JSONDecodeError` from
`json.loads` has its own handler returning `risk_score = 50` and
`error = "json_parse_error"`; every other exception falls to the generic
handler returning `risk_score = 0`. -/
def predict_risk_tools (service_name : String)
    (gemini : Except String String)
    (parseJson : String → Except String Prediction) : RiskAssessment :=
  match gemini with
  | .error e => predictionFailure service_name e
  | .ok raw =>
      let response_text := cleanupResponseTools (pyStrip raw)
      match parseJson response_text with
      | .ok p => predictionSuccess service_name p
      | .error e =>
          ⟨false, service_name, 50, none, "monitor", "low", none,
           some "json_parse_error",
           some ("Failed to parse Gemini response: " ++ e)⟩

/-! ## Orchestration (root_agent.py `AutoHealerRootAgent`) -/

/-- What `heal` reads from the detect tool's JSON reply:
`detection_result.get("anomaly_detected")` (falsy when absent) and
`detection_result.get("metrics", {})`. -/
structure DetectToolResult where
  anomaly_detected : Bool
  metrics : Option Metrics
deriving DecidableEq

/-- What `heal` reads from the predict tool's JSON reply, each with a
`.get` default applied at the use site. -/
structure RiskToolResult where
  success : Bool
  risk_score : Option ℤ
  recommended_action : Option String
  error : Option String
deriving DecidableEq

/-- What `healer_agent` reads from the scale tool's JSON reply (the reply
dict is passed through as the healing result; the fields the orchestration
never reads are dropped). -/
structure ScaleToolResult where
  success : Bool
  error : Option String
deriving DecidableEq

/-- What `healer_agent` reads from the verify tool's JSON reply:
`verify_result.get("success")` and `verify_result.get("ready")`, both falsy
when the key is absent. -/
structure VerifyToolResult where
  success : Bool
  ready : Bool
deriving DecidableEq

/-- What `healer_agent` reads from the restart tool's JSON reply. -/
structure RestartToolResult where
  success : Bool
  error : Option String
deriving DecidableEq

/-- The collaborators of one `heal` run: the reply each MCP tool endpoint
would produce if invoked during the run (the scale reply may depend on the
instance bounds sent). -/
structure World where
  detect : DetectToolResult
  predict : RiskToolResult
  scale : ℤ → ℤ → ScaleToolResult
  verify : VerifyToolResult
  restart : RestartToolResult

/-- Observable external effects of a run, in order: one entry per MCP tool
invocation, plus the fixed `asyncio.sleep` grace wait. -/
inductive CallEvent where
  | detectCall (service : String)
  | predictCall (service : String)
  | scaleCall (service : String) (min_instances max_instances : ℤ)
  | sleep (seconds : ℤ)
  | verifyCall (service : String)
  | restartCall (service : String)
deriving DecidableEq

/-- The dictionary returned by `healer_agent`: for scale/restart it is the
tool reply (plus, on the verified scale path, the added `"verification"`
key); for monitor/escalate/unknown it is built locally. -/
structure HealingResult where
  success : Bool
  action : Option String
  message : Option String
  error : Option String
  verification : Option String
deriving DecidableEq

/-- `healer_agent` from root_agent.py, returning its result together with the
trace of external effects it performed. -/
def healer_agent (w : World) (service_name : String) (action : String)
    (risk_score : ℤ) : HealingResult × List CallEvent :=
  if action = "scale_up" then
    let (min_instances, max_instances) :=
      if risk_score ≥ 80 then ((5 : ℤ), (20 : ℤ))
      else if risk_score ≥ 50 then (3, 15)
      else (2, 10)
    let result := w.scale min_instances max_instances
    if result.success then
      let verify_result := w.verify
      let verification :=
        if verify_result.success ∧ verify_result.ready then "healthy" else "pending"
      (⟨result.success, none, none, result.error, some verification⟩,
       [CallEvent.scaleCall service_name min_instances max_instances,
        CallEvent.sleep 10, CallEvent.verifyCall service_name])
    else
      (⟨result.success, none, none, result.error, none⟩,
       [CallEvent.scaleCall service_name min_instances max_instances])
  else if action = "restart" then
    let result := w.restart
    (⟨result.success, none, none, result.error, none⟩,
     [CallEvent.restartCall service_name])
  else if action = "monitor" then
    (⟨true, some "monitor",
      some ("No immediate action required. Monitoring " ++ service_name ++ "."),
      none, none⟩, [])
  else if action = "escalate_human" then
    (⟨true, some "escalated",
      some ("Alert sent to on-call for " ++ service_name), none, none⟩, [])
  else
    (⟨false, none, none, some ("Unknown action: " ++ action), none⟩, [])

/-- The fixed alias dictionary of `heal`'s STEP 3. -/
def action_aliases : List (String × String) :=
  [("scale_out", "scale_up"), ("scale", "scale_up"),
   ("restart_service", "restart"), ("alert", "escalate_human")]

/-- `action_aliases.get(recommended_action, recommended_action)`. -/
def normalizeAction (recommended_action : String) : String :=
  match action_aliases.lookup recommended_action with
  | some v => v
  | none => recommended_action

/-- The `"summary"` sub-dictionary of a full incident report.  Note the source
records the pre-normalization `recommended_action` as `action_taken`. -/
structure HealSummary where
  anomaly_detected : Bool
  risk_score : ℤ
  action_taken : String
  success : Bool
deriving DecidableEq

/-- The dictionary returned by `heal`.  The short-circuit reply and the full
incident report have different keys; fields missing from a given shape are
`none`.  Wall-clock readings are opaque strings supplied by the caller, and
the derived `duration_seconds` is left out of the model. -/
structure HealReport where
  success : Bool
  action_taken : Option String
  message : Option String
  service : Option String
  alert_message : Option String
  start_time : Option String
  end_time : Option String
  detection : DetectToolResult
  prediction : Option RiskToolResult
  healing : Option HealingResult
  summary : Option HealSummary
deriving DecidableEq

/-- `heal` from root_agent.py: given the collaborators, the wall-clock
readings, and the current `healing_history`, produce the returned report, the
history after the run, and the trace of external effects. -/
def heal (w : World) (service_name : String) (alert_message : String)
    (start_time end_time : String) (healing_history : List HealReport) :
    HealReport × List HealReport × List CallEvent :=
  let detection_result := w.detect
  if detection_result.anomaly_detected = false then
    (⟨true, some "none", some "Service operating normally", none, none, none,
      none, detection_result, none, none, none⟩,
     healing_history, [CallEvent.detectCall service_name])
  else
    let prediction_result := w.predict
    let risk_score := prediction_result.risk_score.getD 0
    let recommended_action := prediction_result.recommended_action.getD "monitor"
    let normalized_action := normalizeAction recommended_action
    let healer_out := healer_agent w service_name normalized_action risk_score
    let healing_result := healer_out.1
    let healer_events := healer_out.2
    let report : HealReport :=
      ⟨true, none, none, some service_name, some alert_message, some start_time,
       some end_time, detection_result, some prediction_result,
       some healing_result,
       some ⟨true, risk_score, recommended_action, healing_result.success⟩⟩
    (report, healing_history ++ [report],
     CallEvent.detectCall service_name :: CallEvent.predictCall service_name ::
       healer_events)

/-- Python suffix slice `l[k:]` on a non-negative-length list, for any
integer start index: a negative `k` counts from the end, clamped at the
front; a non-negative `k` is clamped at the back. -/
def pySlice (l : List α) (k : ℤ) : List α :=
  if k < 0 then l.drop ((l.length : ℤ) + k).toNat
  else l.drop k.toNat

/-- `get_history` from root_agent.py: `self.healing_history[-limit:]`
(`limit` is the caller-supplied integer, default 10). -/
def get_history (healing_history : List α) (limit : ℤ) : List α :=
  pySlice healing_history (-limit)

/-! ## Concrete collaborator instantiations used by witnesses -/

/-- Collaborators for a quiet service: the detect tool reports no anomaly. -/
def quietWorld : World :=
  ⟨⟨false, none⟩, ⟨true, some 90, some "scale_up", none⟩,
   fun _ _ => ⟨true, none⟩, ⟨true, true⟩, ⟨true, none⟩⟩

/-- Collaborators for a degraded service whose every downstream stage fails:
detection reports an anomaly, prediction fails, and the controller tools all
report failure. -/
def failingWorld : World :=
  ⟨⟨true, some ⟨2000, 2500, 9000, 12000, 1/10, 100⟩⟩,
   ⟨false, none, none, some "Gemini unreachable"⟩,
   fun _ _ => ⟨false, some "gcloud CLI not found"⟩, ⟨false, false⟩,
   ⟨false, some "gcloud CLI not found"⟩⟩

/-- Collaborators for a degraded service whose healing succeeds: detection
reports an anomaly, the scale tool succeeds, and verification reports ready. -/
def scaleWorld : World :=
  ⟨⟨true, some ⟨2000, 2500, 9000, 12000, 1/10, 100⟩⟩,
   ⟨true, some 90, some "scale_up", none⟩,
   fun _ _ => ⟨true, none⟩, ⟨true, true⟩, ⟨true, none⟩⟩

/-! ## Helper lemmas -/

/-- The OR of the three rules is set exactly when the ordered violation list
is non-empty. -/
theorem anomalyFlag_iff_violations (metrics : Metrics) (latency_threshold_ms : ℚ)
    (kafka_lag_threshold : ℤ) :
    anomalyFlag metrics latency_threshold_ms kafka_lag_threshold = true ↔
      computeViolations metrics latency_threshold_ms kafka_lag_threshold ≠ [] := by
  unfold anomalyFlag computeViolations
  by_cases h1 : metrics.avg_latency_ms > latency_threshold_ms <;>
  by_cases h2 : metrics.avg_kafka_lag > (kafka_lag_threshold : ℚ) <;>
  by_cases h3 : metrics.avg_error_rate > 0.05 <;>
  simp [h1, h2, h3]

/-- A result the server variant returns (instead of raising) agrees with the
mcp_tools variant on the same query outcome. -/
theorem detect_anomaly_server_ok (service_name : String) (time_window_minutes : ℤ)
    (latency_threshold_ms : ℚ) (kafka_lag_threshold : ℤ) (outcome : QueryOutcome)
    (r : DetectionResult)
    (hr : detect_anomaly_server service_name time_window_minutes latency_threshold_ms
        kafka_lag_threshold outcome = Except.ok r) :
    r = detect_anomaly service_name time_window_minutes latency_threshold_ms
        kafka_lag_threshold outcome := by
  cases outcome with
  | ok rows =>
      cases rows with
      | nil =>
          simp only [detect_anomaly_server, Except.ok.injEq] at hr
          simp [detect_anomaly, ← hr]
      | cons row rest =>
          simp only [detect_anomaly_server, Except.ok.injEq] at hr
          simp [detect_anomaly, ← hr]
  | tableNotFound msg => simp [detect_anomaly_server] at hr
  | forbidden msg => simp [detect_anomaly_server] at hr
  | failure typeName msg => simp [detect_anomaly_server] at hr

/-- Strings outside the alias table normalize to themselves. -/
theorem normalizeAction_eq_self (a : String) (h1 : a ≠ "scale_out")
    (h2 : a ≠ "scale") (h3 : a ≠ "restart_service") (h4 : a ≠ "alert") :
    normalizeAction a = a := by
  simp [normalizeAction, action_aliases, List.lookup,
    beq_eq_false_iff_ne.mpr h1, beq_eq_false_iff_ne.mpr h2,
    beq_eq_false_iff_ne.mpr h3, beq_eq_false_iff_ne.mpr h4]

/-! ## Claims -/

/-- C1: every DetectionResult returned by detect_anomaly (the mcp_tools
variant, and any result the mcp_server variant returns rather than raising)
has `anomaly_detected` true exactly when `violations` is non-empty, and has
`metrics` absent exactly when the queried window produced no metric rows. -/
theorem detect_anomaly_invariants (service_name : String)
    (time_window_minutes : ℤ) (latency_threshold_ms : ℚ)
    (kafka_lag_threshold : ℤ) (outcome : QueryOutcome) :
    ((detect_anomaly service_name time_window_minutes latency_threshold_ms
        kafka_lag_threshold outcome).anomaly_detected = true ↔
      (detect_anomaly service_name time_window_minutes latency_threshold_ms
        kafka_lag_threshold outcome).violations ≠ []) ∧
    ((detect_anomaly service_name time_window_minutes latency_threshold_ms
        kafka_lag_threshold outcome).metrics = none ↔
      rowsFound outcome = []) ∧
    (∀ r : DetectionResult,
      detect_anomaly_server service_name time_window_minutes latency_threshold_ms
        kafka_lag_threshold outcome = Except.ok r →
      ((r.anomaly_detected = true ↔ r.violations ≠ []) ∧
       (r.metrics = none ↔ rowsFound outcome = []))) := by
  have main :
      ((detect_anomaly service_name time_window_minutes latency_threshold_ms
          kafka_lag_threshold outcome).anomaly_detected = true ↔
        (detect_anomaly service_name time_window_minutes latency_threshold_ms
          kafka_lag_threshold outcome).violations ≠ []) ∧
      ((detect_anomaly service_name time_window_minutes latency_threshold_ms
          kafka_lag_threshold outcome).metrics = none ↔
        rowsFound outcome = []) := by
    cases outcome with
    | ok rows =>
        cases rows with
        | nil => simp [detect_anomaly, noDataResult, rowsFound]
        | cons row rest =>
            constructor
            · simpa [detect_anomaly, detectFromRow] using
                anomalyFlag_iff_violations (extractMetrics row)
                  latency_threshold_ms kafka_lag_threshold
            · simp [detect_anomaly, detectFromRow, rowsFound]
    | tableNotFound msg => simp [detect_anomaly, rowsFound]
    | forbidden msg => simp [detect_anomaly, rowsFound]
    | failure typeName msg => simp [detect_anomaly, rowsFound]
  refine ⟨main.1, main.2, ?_⟩
  intro r hr
  rw [detect_anomaly_server_ok service_name time_window_minutes
    latency_threshold_ms kafka_lag_threshold outcome r hr]
  exact main

/-- C1 witness: the server variant applied to an empty result set returns the
NO_DATA result, and the invariants hold for it. -/
theorem detect_anomaly_invariants_witness :
    ((noDataResult "user-api" 5).anomaly_detected = true ↔
      (noDataResult "user-api" 5).violations ≠ []) ∧
    ((noDataResult "user-api" 5).metrics = none ↔
      rowsFound (QueryOutcome.ok []) = []) :=
  (detect_anomaly_invariants "user-api" 5 500 5000 (QueryOutcome.ok [])).2.2
    (noDataResult "user-api" 5) rfl

/-- C9: when metric rows are found, detect_anomaly evaluates the latency
rule (against the configurable threshold), then the kafka-lag rule (against
the configurable threshold), then the error-rate rule against the fixed 0.05
constant, appending one violation per fired rule in that order, and
`anomaly_detected` is the OR of the three rule outcomes. -/
theorem detect_anomaly_rule_order (service_name : String)
    (time_window_minutes : ℤ) (latency_threshold_ms : ℚ)
    (kafka_lag_threshold : ℤ) (row : MetricsRow) (rest : List MetricsRow) :
    (detect_anomaly service_name time_window_minutes latency_threshold_ms
        kafka_lag_threshold (QueryOutcome.ok (row :: rest))).violations =
      (if (extractMetrics row).avg_latency_ms > latency_threshold_ms then
        [Violation.latency (extractMetrics row).avg_latency_ms
          latency_threshold_ms] else []) ++
      (if (extractMetrics row).avg_kafka_lag > (kafka_lag_threshold : ℚ) then
        [Violation.kafkaLag (extractMetrics row).avg_kafka_lag
          kafka_lag_threshold] else []) ++
      (if (extractMetrics row).avg_error_rate > 0.05 then
        [Violation.errorRate (extractMetrics row).avg_error_rate] else []) ∧
    ((detect_anomaly service_name time_window_minutes latency_threshold_ms
        kafka_lag_threshold (QueryOutcome.ok (row :: rest))).anomaly_detected
        = true ↔
      ((extractMetrics row).avg_latency_ms > latency_threshold_ms ∨
       (extractMetrics row).avg_kafka_lag > (kafka_lag_threshold : ℚ) ∨
       (extractMetrics row).avg_error_rate > 0.05)) := by
  constructor
  · simp [detect_anomaly, detectFromRow, computeViolations]
  · simp [detect_anomaly, detectFromRow, anomalyFlag, or_assoc]

/-- C3 counterexample: the mcp_server variant of detect_anomaly, one of the
claim's cited definitions, does not return a DetectionResult when the store
table is missing — it re-raises the exception as an HTTP 500 error. -/
theorem detect_anomaly_server_raises_on_missing_table :
    detect_anomaly_server "user-api" 5 500 5000
      (QueryOutcome.tableNotFound "404 Table not found") =
    Except.error "404 Table not found" := rfl

/-- C3 as amended: the mcp_tools variant of detect_anomaly never raises —
for every collaborator outcome it is total and returns a well-formed
DetectionResult with `anomaly_detected = false` and the corresponding error
kind (NO_DATA, TABLE_NOT_FOUND, PERMISSION_DENIED, or the unclassified
fallback carrying the exception's type name); rows-found results carry no
error kind.  The mcp_server variant shares the non-raising NO_DATA and
rows-found paths but re-raises store exceptions instead of encoding them. -/
theorem detect_anomaly_tools_error_taxonomy (service_name : String)
    (time_window_minutes : ℤ) (latency_threshold_ms : ℚ)
    (kafka_lag_threshold : ℤ) :
    ((detect_anomaly service_name time_window_minutes latency_threshold_ms
        kafka_lag_threshold (QueryOutcome.ok [])).anomaly_detected = false ∧
     (detect_anomaly service_name time_window_minutes latency_threshold_ms
        kafka_lag_threshold (QueryOutcome.ok [])).metrics = none ∧
     (detect_anomaly service_name time_window_minutes latency_threshold_ms
        kafka_lag_threshold (QueryOutcome.ok [])).violations = [] ∧
     (detect_anomaly service_name time_window_minutes latency_threshold_ms
        kafka_lag_threshold (QueryOutcome.ok [])).error =
          some ErrorKind.NO_DATA) ∧
    (∀ msg : String,
      (detect_anomaly service_name time_window_minutes latency_threshold_ms
        kafka_lag_threshold (QueryOutcome.tableNotFound msg)).anomaly_detected
          = false ∧
      (detect_anomaly service_name time_window_minutes latency_threshold_ms
        kafka_lag_threshold (QueryOutcome.tableNotFound msg)).violations = [] ∧
      (detect_anomaly service_name time_window_minutes latency_threshold_ms
        kafka_lag_threshold (QueryOutcome.tableNotFound msg)).error =
          some ErrorKind.TABLE_NOT_FOUND) ∧
    (∀ msg : String,
      (detect_anomaly service_name time_window_minutes latency_threshold_ms
        kafka_lag_threshold (QueryOutcome.forbidden msg)).anomaly_detected
          = false ∧
      (detect_anomaly service_name time_window_minutes latency_threshold_ms
        kafka_lag_threshold (QueryOutcome.forbidden msg)).violations = [] ∧
      (detect_anomaly service_name time_window_minutes latency_threshold_ms
        kafka_lag_threshold (QueryOutcome.forbidden msg)).error =
          some ErrorKind.PERMISSION_DENIED) ∧
    (∀ typeName msg : String,
      (detect_anomaly service_name time_window_minutes latency_threshold_ms
        kafka_lag_threshold
        (QueryOutcome.failure typeName msg)).anomaly_detected = false ∧
      (detect_anomaly service_name time_window_minutes latency_threshold_ms
        kafka_lag_threshold (QueryOutcome.failure typeName msg)).violations
          = [] ∧
      (detect_anomaly service_name time_window_minutes latency_threshold_ms
        kafka_lag_threshold (QueryOutcome.failure typeName msg)).error =
          some (ErrorKind.unclassified typeName)) ∧
    (∀ (row : MetricsRow) (rest : List MetricsRow),
      (detect_anomaly service_name time_window_minutes latency_threshold_ms
        kafka_lag_threshold (QueryOutcome.ok (row :: rest))).error = none) := by
  refine ⟨⟨rfl, rfl, rfl, rfl⟩, fun msg => ⟨rfl, rfl, rfl⟩,
    fun msg => ⟨rfl, rfl, rfl⟩, fun typeName msg => ⟨rfl, rfl, rfl⟩,
    fun row rest => rfl⟩

/-- C2: when the detection stage reports no anomaly, heal short-circuits:
it returns a successful report with `action_taken = "none"`, and the only
external effect of the run is the detect-tool call — the reasoning service
and the controller's scale/restart/verify operations are never invoked. -/
theorem heal_short_circuits_without_anomaly (w : World)
    (service_name alert_message start_time end_time : String)
    (healing_history : List HealReport)
    (h : w.detect.anomaly_detected = false) :
    (heal w service_name alert_message start_time end_time
        healing_history).1.action_taken = some "none" ∧
    (heal w service_name alert_message start_time end_time
        healing_history).1.success = true ∧
    (heal w service_name alert_message start_time end_time
        healing_history).2.2 = [CallEvent.detectCall service_name] := by
  refine ⟨?_, ?_, ?_⟩ <;> simp [heal, h]

/-- C2 witness: a run against a quiet service. -/
theorem heal_short_circuits_without_anomaly_witness :
    (heal quietWorld "user-api" "High latency spike" "t0" "t1"
        []).1.action_taken = some "none" ∧
    (heal quietWorld "user-api" "High latency spike" "t0" "t1"
        []).1.success = true ∧
    (heal quietWorld "user-api" "High latency spike" "t0" "t1" []).2.2 =
      [CallEvent.detectCall "user-api"] :=
  heal_short_circuits_without_anomaly quietWorld "user-api"
    "High latency spike" "t0" "t1" [] rfl

/-- C4 counterexample: a completed run whose detection stage reports no
anomaly returns a report without start or end times and appends nothing to
the healing history, so this run is not retrievable from history. -/
theorem heal_no_anomaly_run_not_recorded :
    (heal quietWorld "user-api" "alert" "t0" "t1" []).2.1 = [] ∧
    (heal quietWorld "user-api" "alert" "t0" "t1" []).1.start_time = none ∧
    (heal quietWorld "user-api" "alert" "t0" "t1" []).1.end_time = none := by
  refine ⟨rfl, rfl, rfl⟩

/-- C4 as amended: every run whose detection stage reports an anomaly builds
exactly one report carrying the supplied start and end times plus the full
detection, prediction and healing payloads, and appends exactly that report
to the healing history — with no assumption on downstream success, so runs
whose prediction or healing failed are recorded too.  A run with no anomaly
short-circuits and is not appended. -/
theorem heal_anomalous_run_recorded (w : World)
    (service_name alert_message start_time end_time : String)
    (healing_history : List HealReport)
    (h : w.detect.anomaly_detected = true) :
    (heal w service_name alert_message start_time end_time
        healing_history).2.1 =
      healing_history ++
        [(heal w service_name alert_message start_time end_time
            healing_history).1] ∧
    (heal w service_name alert_message start_time end_time
        healing_history).1.start_time = some start_time ∧
    (heal w service_name alert_message start_time end_time
        healing_history).1.end_time = some end_time ∧
    (heal w service_name alert_message start_time end_time
        healing_history).1.detection = w.detect ∧
    (heal w service_name alert_message start_time end_time
        healing_history).1.prediction = some w.predict := by
  refine ⟨?_, ?_, ?_, ?_, ?_⟩ <;> simp [heal, h]

/-- C4 witness: a run in which every downstream stage failed is still
appended to history with its timestamps. -/
theorem heal_anomalous_run_recorded_witness :
    (heal failingWorld "user-api" "alert" "t0" "t1" []).2.1 =
      [] ++ [(heal failingWorld "user-api" "alert" "t0" "t1" []).1] ∧
    (heal failingWorld "user-api" "alert" "t0" "t1" []).1.start_time =
      some "t0" ∧
    (heal failingWorld "user-api" "alert" "t0" "t1" []).1.end_time =
      some "t1" :=
  ⟨(heal_anomalous_run_recorded failingWorld "user-api" "alert" "t0" "t1"
      [] rfl).1,
   (heal_anomalous_run_recorded failingWorld "user-api" "alert" "t0" "t1"
      [] rfl).2.1,
   (heal_anomalous_run_recorded failingWorld "user-api" "alert" "t0" "t1"
      [] rfl).2.2.1⟩

/-- C7: for the canonical action scale_up the Healer picks instance bounds by
risk tier (risk ≥ 80 → (5,20); 50 ≤ risk < 80 → (3,15); otherwise (2,10)),
always issuing the scale call with those bounds; when the scale call
succeeds it performs the fixed 10-second grace wait, invokes the verify
operation exactly once, and sets `verification` to "healthy" exactly when
the verify reply reports success and ready, else "pending". -/
theorem healer_agent_scale_up_spec (w : World) (service_name : String)
    (risk_score : ℤ) :
    (80 ≤ risk_score ∧ (w.scale 5 20).success = true →
      healer_agent w service_name "scale_up" risk_score =
        (⟨true, none, none, (w.scale 5 20).error,
           some (if w.verify.success ∧ w.verify.ready then "healthy"
             else "pending")⟩,
         [CallEvent.scaleCall service_name 5 20, CallEvent.sleep 10,
          CallEvent.verifyCall service_name])) ∧
    (50 ≤ risk_score ∧ risk_score < 80 ∧ (w.scale 3 15).success = true →
      healer_agent w service_name "scale_up" risk_score =
        (⟨true, none, none, (w.scale 3 15).error,
           some (if w.verify.success ∧ w.verify.ready then "healthy"
             else "pending")⟩,
         [CallEvent.scaleCall service_name 3 15, CallEvent.sleep 10,
          CallEvent.verifyCall service_name])) ∧
    (risk_score < 50 ∧ (w.scale 2 10).success = true →
      healer_agent w service_name "scale_up" risk_score =
        (⟨true, none, none, (w.scale 2 10).error,
           some (if w.verify.success ∧ w.verify.ready then "healthy"
             else "pending")⟩,
         [CallEvent.scaleCall service_name 2 10, CallEvent.sleep 10,
          CallEvent.verifyCall service_name])) ∧
    ((healer_agent w service_name "scale_up" risk_score).2.head? =
      some (CallEvent.scaleCall service_name
        (if 80 ≤ risk_score then 5 else if 50 ≤ risk_score then 3 else 2)
        (if 80 ≤ risk_score then 20 else if 50 ≤ risk_score then 15
          else 10))) := by
  refine ⟨?_, ?_, ?_, ?_⟩
  · rintro ⟨h80, hs⟩
    have h80g : risk_score ≥ 80 := h80
    simp [healer_agent, h80g, hs]
  · rintro ⟨h50, h80, hs⟩
    have hn80 : ¬ risk_score ≥ 80 := by omega
    have h50g : risk_score ≥ 50 := h50
    simp [healer_agent, hn80, h50g, hs]
  · rintro ⟨h50, hs⟩
    have hn80 : ¬ risk_score ≥ 80 := by omega
    have hn50 : ¬ risk_score ≥ 50 := by omega
    simp [healer_agent, hn80, hn50, hs]
  · by_cases h80 : risk_score ≥ 80
    · by_cases hs : (w.scale 5 20).success <;>
        simp [healer_agent, h80, hs, ge_iff_le.mp h80]
    · by_cases h50 : risk_score ≥ 50
      · have hn80 : ¬ (80 : ℤ) ≤ risk_score := h80
        by_cases hs : (w.scale 3 15).success <;>
          simp [healer_agent, h80, h50, hs, hn80, ge_iff_le.mp h50]
      · have hn80 : ¬ (80 : ℤ) ≤ risk_score := h80
        have hn50 : ¬ (50 : ℤ) ≤ risk_score := h50
        by_cases hs : (w.scale 2 10).success <;>
          simp [healer_agent, h80, h50, hs, hn80, hn50]

/-- C7 witness: a high-risk run against collaborators whose scale call
succeeds and whose verify reply reports ready. -/
theorem healer_agent_scale_up_spec_witness :
    healer_agent scaleWorld "user-api" "scale_up" 90 =
      (⟨true, none, none, none, some "healthy"⟩,
       [CallEvent.scaleCall "user-api" 5 20, CallEvent.sleep 10,
        CallEvent.verifyCall "user-api"]) := by
  have h := (healer_agent_scale_up_spec scaleWorld "user-api" 90).1
    ⟨by norm_num, rfl⟩
  simpa using h

/-- C5: when the reasoning-service response text (stripped) has unbalanced
brace counts, the server predict_risk does not attempt to parse the response
— the result is the same for every parse oracle — and instead returns the
deterministic fallback computed only from the raw metrics: risk 85 with
action scale_up when the latency or error-rate thresholds are exceeded, else
risk 50 with action monitor; the function is total, so it does not raise. -/
theorem predict_risk_server_unbalanced_fallback (service_name : String)
    (metrics : PredictMetrics) (raw : String)
    (parse1 parse2 : String → Except String Prediction)
    (h : countChar (pyStrip raw) lbrace ≠ countChar (pyStrip raw) rbrace) :
    predict_risk_server service_name metrics (Except.ok raw) parse1 =
      predict_risk_server service_name metrics (Except.ok raw) parse2 ∧
    ((metrics.avg_latency_ms.getD 0 > 1500 ∨
        metrics.avg_error_rate.getD 0 > 0.05) →
      (predict_risk_server service_name metrics
          (Except.ok raw) parse1).risk_score = 85 ∧
      (predict_risk_server service_name metrics
          (Except.ok raw) parse1).recommended_action = "scale_up") ∧
    (¬ (metrics.avg_latency_ms.getD 0 > 1500 ∨
        metrics.avg_error_rate.getD 0 > 0.05) →
      (predict_risk_server service_name metrics
          (Except.ok raw) parse1).risk_score = 50 ∧
      (predict_risk_server service_name metrics
          (Except.ok raw) parse1).recommended_action = "monitor") := by
  refine ⟨?_, ?_, ?_⟩
  · simp [predict_risk_server, h]
  · intro ht
    constructor <;> simp [predict_risk_server, h, ht, predictionSuccess]
  · intro ht
    constructor <;> simp [predict_risk_server, h, ht, predictionSuccess]

/-- C5 witness: a truncated single-brace response with metrics above the
thresholds yields the 85/scale_up fallback under two different parse
oracles. -/
theorem predict_risk_server_unbalanced_fallback_witness :
    predict_risk_server "user-api" ⟨some 2000, some (1/10)⟩
        (Except.ok "\x7b") (fun _ => Except.error "e1") =
      predict_risk_server "user-api" ⟨some 2000, some (1/10)⟩
        (Except.ok "\x7b") (fun s => Except.ok ⟨0, s, "restart", "low", s⟩) ∧
    (predict_risk_server "user-api" ⟨some 2000, some (1/10)⟩
        (Except.ok "\x7b") (fun _ => Except.error "e1")).risk_score = 85 ∧
    (predict_risk_server "user-api" ⟨some 2000, some (1/10)⟩
        (Except.ok "\x7b")
        (fun _ => Except.error "e1")).recommended_action = "scale_up" := by
  have h := predict_risk_server_unbalanced_fallback "user-api"
    ⟨some 2000, some (1/10)⟩ "\x7b" (fun _ => Except.error "e1")
    (fun s => Except.ok ⟨0, s, "restart", "low", s⟩) (by decide)
  exact ⟨h.1, (h.2.1 (Or.inl (by norm_num))).1, (h.2.1 (Or.inl (by norm_num))).2⟩

/-- C6 counterexample: in the mcp_tools variant of predict_risk — one of the
claim's cited definitions — a JSON parse failure yields `risk_score = 50`,
not the claimed 0 (the 0 default belongs to its generic handler and to the
mcp_server variant). -/
theorem predict_risk_tools_parse_failure_risk_50 :
    (predict_risk_tools "user-api" (Except.ok "I cannot answer that")
        (fun _ => Except.error "Expecting value: line 1 column 1")).risk_score
      = 50 ∧
    (predict_risk_tools "user-api" (Except.ok "I cannot answer that")
        (fun _ => Except.error "Expecting value: line 1 column 1")).risk_score
      ≠ 0 := by
  refine ⟨rfl, by decide⟩

/-- C6 as amended: prediction never raises (both variants are total and
always return a structurally valid assessment).  In the mcp_server variant,
a raised call and a failed parse both return success = false, risk_score =
0, action "monitor", confidence "low" and the error message.  In the
mcp_tools variant a raised call returns that same risk-0 shape, but a JSON
parse failure returns success = false with risk_score = 50, action
"monitor", confidence "low", error "json_parse_error" and the parse
message. -/
theorem predict_risk_failure_paths (service_name : String)
    (metrics : PredictMetrics) (parse : String → Except String Prediction)
    (e msg raw : String) :
    predict_risk_server service_name metrics (Except.error msg) parse =
      ⟨false, service_name, 0, none, "monitor", "low", none, some msg,
       none⟩ ∧
    (countChar (pyStrip raw) lbrace = countChar (pyStrip raw) rbrace →
      parse (cleanupResponse (pyStrip raw)) = Except.error e →
      predict_risk_server service_name metrics (Except.ok raw) parse =
        ⟨false, service_name, 0, none, "monitor", "low", none, some e,
         none⟩) ∧
    predict_risk_tools service_name (Except.error msg) parse =
      ⟨false, service_name, 0, none, "monitor", "low", none, some msg,
       none⟩ ∧
    (parse (cleanupResponseTools (pyStrip raw)) = Except.error e →
      predict_risk_tools service_name (Except.ok raw) parse =
        ⟨false, service_name, 50, none, "monitor", "low", none,
         some "json_parse_error",
         some ("Failed to parse Gemini response: " ++ e)⟩) := by
  refine ⟨rfl, ?_, rfl, ?_⟩
  · intro hbal hp
    simp [predict_risk_server, hbal, hp, predictionFailure]
  · intro hp
    simp [predict_risk_tools, hp]

/-- C6 witness: a balanced two-brace response whose parse fails yields the
risk-0 failure shape from the server variant. -/
theorem predict_risk_failure_paths_witness :
    predict_risk_server "user-api" ⟨none, none⟩ (Except.ok "\x7b\x7d")
        (fun _ => Except.error "bad JSON") =
      ⟨false, "user-api", 0, none, "monitor", "low", none, some "bad JSON",
       none⟩ :=
  (predict_risk_failure_paths "user-api" ⟨none, none⟩
      (fun _ => Except.error "bad JSON") "bad JSON" "unused"
      "\x7b\x7d").2.1 (by decide) rfl

/-- C8: the action normalizer maps exactly the four aliases (scale_out and
scale to scale_up, restart_service to restart, alert to escalate_human) by
case-sensitive exact match; every other string — the four canonical actions
included — passes through unchanged; hence normalization is idempotent. -/
theorem normalize_action_spec :
    normalizeAction "scale_out" = "scale_up" ∧
    normalizeAction "scale" = "scale_up" ∧
    normalizeAction "restart_service" = "restart" ∧
    normalizeAction "alert" = "escalate_human" ∧
    normalizeAction "scale_up" = "scale_up" ∧
    normalizeAction "restart" = "restart" ∧
    normalizeAction "monitor" = "monitor" ∧
    normalizeAction "escalate_human" = "escalate_human" ∧
    (∀ a : String, a ≠ "scale_out" → a ≠ "scale" → a ≠ "restart_service" →
      a ≠ "alert" → normalizeAction a = a) ∧
    (∀ a : String,
      normalizeAction (normalizeAction a) = normalizeAction a) := by
  refine ⟨rfl, rfl, rfl, rfl, rfl, rfl, rfl, rfl, normalizeAction_eq_self, ?_⟩
  intro a
  by_cases h1 : a = "scale_out"
  · subst h1; rfl
  by_cases h2 : a = "scale"
  · subst h2; rfl
  by_cases h3 : a = "restart_service"
  · subst h3; rfl
  by_cases h4 : a = "alert"
  · subst h4; rfl
  rw [normalizeAction_eq_self a h1 h2 h3 h4,
    normalizeAction_eq_self a h1 h2 h3 h4]

/-- C8 witness: an unrecognized action passes through unchanged. -/
theorem normalize_action_spec_witness :
    normalizeAction "unrecognized_xyz" = "unrecognized_xyz" :=
  normalize_action_spec.2.2.2.2.2.2.2.2.1 "unrecognized_xyz"
    (by decide) (by decide) (by decide) (by decide)

/-- C10: `get_history` (hence GET /history) with limit 0 returns the whole
stored history, because the Python slice `healing_history[-0:]` is the whole
list; for every positive limit it returns the suffix of the last
min(limit, length) reports in insertion order. -/
theorem get_history_limit_semantics (α : Type) (healing_history : List α) :
    get_history healing_history 0 = healing_history ∧
    (∀ limit : ℤ, 0 < limit →
      get_history healing_history limit =
        healing_history.drop (healing_history.length - limit.toNat) ∧
      (get_history healing_history limit).length =
        min limit.toNat healing_history.length) := by
  constructor
  · simp [get_history, pySlice]
  · intro limit hl
    have hneg : (-limit) < 0 := by omega
    constructor
    · simp only [get_history, pySlice, if_pos hneg]
      congr 1
      omega
    · simp only [get_history, pySlice, if_pos hneg, List.length_drop]
      omega

/-- C10 witness: a three-entry history with limit 0 and with limit 2. -/
theorem get_history_limit_semantics_witness :
    get_history ([10, 20, 30] : List ℕ) 0 = [10, 20, 30] ∧
    get_history ([10, 20, 30] : List ℕ) 2 = [20, 30] := by
  refine ⟨(get_history_limit_semantics ℕ [10, 20, 30]).1, ?_⟩
  have h := ((get_history_limit_semantics ℕ [10, 20, 30]).2 2 (by norm_num)).1
  rw [h]
  decide
